import Mathlib

/-!
Verification development for the orbit client-side session manager.

The embedded code consists of two components:
* an authentication provider (`AuthProvider`) that owns the session state
  (token, expiry, user profile), persists `userInfo` and `expiresAt` to the
  browser's durable key-value storage, and exposes the predicates
  `isAuthenticated` and `isAdmin` together with the mutators `setAuthInfo`
  and `logout`;
* a request gateway (`FetchProvider`) that owns an HTTP client and performs a
  one-time, fire-and-forget CSRF handshake that installs an `X-CSRF-Token`
  default header on success.

Modelling conventions:
* Durable client storage is an association list from key strings to value
  strings, with the JavaScript `localStorage` operations `getItem`,
  `setItem`, `removeItem`.
* JavaScript's JSON values are modelled by the inductive `Json`; numeric
  literals are modelled exactly by scaled decimals `JNum` (an integer
  mantissa times a power of ten), which represent every numeric value this
  system stores - integer epoch timestamps and profile fields - exactly.
  The rational semantics of such a number is `JNum.toRat`.  `JSON.parse` is
  modelled by a recursive-descent `jsonParse` over the JSON grammar; a
  `none` result models the thrown SyntaxError.  `JSON.stringify` is
  modelled by `jsonStringify`.
* The absent JavaScript values `undefined`/`null` are modelled by `Option`
  with value `none`; fields of the session state are `Option`s.
* Session expiry values can be numbers (as passed by login callers) or
  strings (as recovered from durable storage); `ExpVal` covers both, and the
  numeric coercion JavaScript applies when comparing a clock against a string
  is modelled by `strToNumber` (decimal literals; a `none` result models
  NaN, whose comparisons are false).  Numeric expiry values are modelled as
  integers, matching the integer epoch-second timestamps the system stores.
* The millisecond clock is a natural number; the comparison
  `getTime() / 1000 < expiresAt` is modelled exactly over the rationals.
-/

/-- Durable client storage: an association list of key/value string pairs. -/
abbrev Store : Type := List (String × String)

/-- localStorage.getItem: first binding of the key, or null (`none`). -/
def getItem : Store → String → Option String
  | [], _ => none
  | (k, v) :: rest, key => if k = key then some v else getItem rest key

/-- Remove every binding of a key (localStorage.removeItem). -/
def removeKey : Store → String → Store
  | [], _ => []
  | (k, v) :: rest, key =>
      if k = key then removeKey rest key else (k, v) :: removeKey rest key

/-- localStorage.setItem: bind the key to the value, dropping old bindings. -/
def setItem (s : Store) (k v : String) : Store :=
  (k, v) :: removeKey s k

/-- A JavaScript number as an exact scaled decimal: `mant * 10 ^ exp10`.
This represents every numeric value the system stores exactly and admits
exact, executable comparison and printing. -/
structure JNum where
  mant : Int
  exp10 : Int
deriving DecidableEq

/-- Rational semantics of a scaled-decimal number. -/
def JNum.toRat (n : JNum) : ℚ :=
  (n.mant : ℚ) * (10 : ℚ) ^ n.exp10

/-- JSON values. -/
inductive Json where
  | null : Json
  | bool : Bool → Json
  | num : JNum → Json
  | str : String → Json
  | arr : List Json → Json
  | obj : List (String × Json) → Json

/-- First binding of a field name in an object's field list (JavaScript
property lookup; objects built by the parser keep at most one binding per
key, last write winning). -/
def lookupField : List (String × Json) → String → Option Json
  | [], _ => none
  | (k, v) :: rest, key => if k = key then some v else lookupField rest key

/-- Update a field binding in place, or append it (JavaScript property
assignment, used for duplicate keys during parsing: last value wins, first
position kept). -/
def setField : List (String × Json) → String → Json → List (String × Json)
  | [], key, v => [(key, v)]
  | (k, w) :: rest, key, v =>
      if k = key then (k, v) :: rest else (k, w) :: setField rest key v

/-- JSON whitespace. -/
def isJsonWs (c : Char) : Bool :=
  c = ' ' || c = '\t' || c = '\n' || c = '\r'

/-- Skip leading JSON whitespace. -/
def skipWs : List Char → List Char
  | [] => []
  | c :: cs => if isJsonWs c then skipWs cs else c :: cs

/-- Value of a hexadecimal digit. -/
def hexVal (c : Char) : Option Nat :=
  if '0' ≤ c ∧ c ≤ '9' then some (c.toNat - 48)
  else if 'a' ≤ c ∧ c ≤ 'f' then some (c.toNat - 87)
  else if 'A' ≤ c ∧ c ≤ 'F' then some (c.toNat - 55)
  else none

/-- Four hexadecimal digits of a \u escape. -/
def parseHex4 : List Char → Option (Nat × List Char)
  | a :: b :: c :: d :: rest =>
      match hexVal a, hexVal b, hexVal c, hexVal d with
      | some x, some y, some z, some w => some (((x * 16 + y) * 16 + z) * 16 + w, rest)
      | _, _, _, _ => none
  | _ => none

/-- Single-character JSON string escapes. -/
def escVal (c : Char) : Option Char :=
  if c = '"' then some '"'
  else if c = '\\' then some '\\'
  else if c = '/' then some '/'
  else if c = 'b' then some (Char.ofNat 8)
  else if c = 'f' then some (Char.ofNat 12)
  else if c = 'n' then some '\n'
  else if c = 'r' then some '\r'
  else if c = 't' then some '\t'
  else none

/-- Body of a JSON string literal, after the opening quote: returns the
decoded characters and the input following the closing quote. -/
def parseStrChars : Nat → List Char → Option (List Char × List Char)
  | 0, _ => none
  | _ + 1, [] => none
  | f + 1, c :: rest =>
      if c = '"' then some ([], rest)
      else if c = '\\' then
        match rest with
        | [] => none
        | e :: rest2 =>
            if e = 'u' then
              match parseHex4 rest2 with
              | some (n, rest3) =>
                  match parseStrChars f rest3 with
                  | some (cs, r) => some (Char.ofNat n :: cs, r)
                  | none => none
              | none => none
            else
              match escVal e with
              | some ch =>
                  match parseStrChars f rest2 with
                  | some (cs, r) => some (ch :: cs, r)
                  | none => none
              | none => none
      else if c.toNat < 32 then none
      else
        match parseStrChars f rest with
        | some (cs, r) => some (c :: cs, r)
        | none => none

/-- Numeric value of a run of decimal digits. -/
def digitsVal (ds : List Char) : Nat :=
  ds.foldl (fun a c => a * 10 + (c.toNat - 48)) 0

/-- A JSON number literal: optional minus, integer part without leading
zeros, optional fraction, optional exponent.  Returns its exact
scaled-decimal value and the rest of the input. -/
def parseNum (cs : List Char) : Option (Json × List Char) :=
  let signed := match cs with
    | '-' :: r => (true, r)
    | _ => (false, cs)
  let neg := signed.1
  let cs1 := signed.2
  let ds := cs1.takeWhile Char.isDigit
  let r1 := cs1.dropWhile Char.isDigit
  if ds = [] then none
  else if 1 < ds.length ∧ ds.headI = '0' then none
  else
    let fracRes : Option (List Char × Nat × List Char) := match r1 with
      | '.' :: r2 =>
          let fd := r2.takeWhile Char.isDigit
          if fd = [] then none
          else some (ds ++ fd, fd.length, r2.dropWhile Char.isDigit)
      | _ => some (ds, 0, r1)
    match fracRes with
    | none => none
    | some (mds, flen, r3) =>
        let expRes : Option (Int × List Char) := match r3 with
          | e :: r4 =>
              if e = 'e' ∨ e = 'E' then
                let esigned := match r4 with
                  | '+' :: r5 => (false, r5)
                  | '-' :: r5 => (true, r5)
                  | _ => (false, r4)
                let ed := esigned.2.takeWhile Char.isDigit
                if ed = [] then none
                else
                  let ev : Int := (digitsVal ed : Int)
                  some (if esigned.1 then -ev else ev, esigned.2.dropWhile Char.isDigit)
              else some (0, r3)
          | [] => some (0, r3)
        match expRes with
        | none => none
        | some (ev, r6) =>
            let m : Int := (digitsVal mds : Int)
            some (Json.num ⟨if neg then -m else m, ev - (flen : Int)⟩, r6)

/-- Parser modes: a whole value, the items of an array after its opening
bracket, or the members of an object after its opening brace. -/
inductive PMode where
  | val : PMode
  | arrItems : List Json → PMode
  | objItems : List (String × Json) → PMode

/-- Fuel-driven recursive-descent JSON parser (the model of the JavaScript
built-in `JSON.parse`; a `none` result models the thrown SyntaxError). -/
def parseStep : Nat → PMode → List Char → Option (Json × List Char)
  | 0, _, _ => none
  | f + 1, PMode.val, cs0 =>
      match skipWs cs0 with
      | [] => none
      | c :: rest =>
          if c = 'n' then
            match rest with
            | 'u' :: 'l' :: 'l' :: r => some (Json.null, r)
            | _ => none
          else if c = 't' then
            match rest with
            | 'r' :: 'u' :: 'e' :: r => some (Json.bool true, r)
            | _ => none
          else if c = 'f' then
            match rest with
            | 'a' :: 'l' :: 's' :: 'e' :: r => some (Json.bool false, r)
            | _ => none
          else if c = '"' then
            match parseStrChars (rest.length + 1) rest with
            | some (cs, r) => some (Json.str (String.mk cs), r)
            | none => none
          else if c = '\x7b' then
            match skipWs rest with
            | '\x7d' :: r => some (Json.obj [], r)
            | cs2 => parseStep f (PMode.objItems []) cs2
          else if c = '[' then
            match skipWs rest with
            | ']' :: r => some (Json.arr [], r)
            | cs2 => parseStep f (PMode.arrItems []) cs2
          else parseNum (c :: rest)
  | f + 1, PMode.arrItems acc, cs0 =>
      match parseStep f PMode.val cs0 with
      | none => none
      | some (v, r) =>
          match skipWs r with
          | ',' :: r2 => parseStep f (PMode.arrItems (acc ++ [v])) r2
          | ']' :: r2 => some (Json.arr (acc ++ [v]), r2)
          | _ => none
  | f + 1, PMode.objItems acc, cs0 =>
      match skipWs cs0 with
      | '"' :: r =>
          match parseStrChars (r.length + 1) r with
          | none => none
          | some (kcs, r2) =>
              match skipWs r2 with
              | ':' :: r3 =>
                  match parseStep f PMode.val r3 with
                  | none => none
                  | some (v, r4) =>
                      match skipWs r4 with
                      | ',' :: r5 =>
                          parseStep f (PMode.objItems (setField acc (String.mk kcs) v)) r5
                      | '\x7d' :: r5 =>
                          some (Json.obj (setField acc (String.mk kcs) v), r5)
                      | _ => none
              | _ => none
      | _ => none

/-- The model of `JSON.parse`: parse one value and require only whitespace
to remain.  `none` models the SyntaxError exception. -/
def jsonParse (s : String) : Option Json :=
  match parseStep (2 * s.length + 2) PMode.val s.toList with
  | some (v, r) => if skipWs r = [] then some v else none
  | none => none

example : jsonParse "\x7b" = none := rfl
example : jsonParse "null" = some Json.null := rfl
example : jsonParse "\x7b\"role\":\"admin\"\x7d" = some (Json.obj [("role", Json.str "admin")]) := rfl
example : jsonParse " [1, 2.5, -3e1] " =
    some (Json.arr [Json.num ⟨1, 0⟩, Json.num ⟨25, -1⟩, Json.num ⟨-3, 1⟩]) := rfl
example : jsonParse "" = none := rfl
example : jsonParse "01" = none := rfl

/-- Decimal digit character. -/
def digitChar10 (n : Nat) : Char := Char.ofNat (48 + n)

/-- Decimal digit characters of a natural number (fuel-driven). -/
def natToStrAux : Nat → Nat → List Char
  | 0, _ => []
  | f + 1, n => if n < 10 then [digitChar10 n] else natToStrAux f (n / 10) ++ [digitChar10 (n % 10)]

/-- Decimal rendering of a natural number. -/
def natToStr (n : Nat) : String := String.mk (natToStrAux (n + 1) n)

/-- Decimal rendering of an integer (the JavaScript `String(n)` for the
integers this system stores). -/
def intToStr (i : Int) : String :=
  if i < 0 then "-" ++ natToStr i.natAbs else natToStr i.natAbs

/-- Strip up to `k` trailing zero digits from a nonzero natural, returning
the stripped value and how many remain to strip. -/
def stripZeros : Nat → Nat → Nat → Nat × Nat
  | 0, a, k => (a, k)
  | f + 1, a, k =>
      if k = 0 then (a, k)
      else if a % 10 = 0 then stripZeros f (a / 10) (k - 1)
      else (a, k)

/-- JavaScript's decimal rendering of a scaled-decimal number (exponential
notation for magnitudes at or beyond 1e21 is outside the model; no value
this system stores reaches it). -/
def jnumToString (n : JNum) : String :=
  if n.mant = 0 then "0"
  else
    let sign := if n.mant < 0 then "-" else ""
    let a := n.mant.natAbs
    if 0 ≤ n.exp10 then
      sign ++ natToStr a ++ String.mk (List.replicate n.exp10.toNat '0')
    else
      let k0 := (-n.exp10).toNat
      let p := stripZeros k0 a k0
      let a2 := p.1
      let k := p.2
      if k = 0 then sign ++ natToStr a2
      else
        let ds := natToStrAux (a2 + 1) a2
        if k < ds.length then
          sign ++ String.mk (ds.take (ds.length - k)) ++ "." ++ String.mk (ds.drop (ds.length - k))
        else
          sign ++ "0." ++ String.mk (List.replicate (k - ds.length) '0') ++ String.mk ds

/-- Hexadecimal digit character. -/
def hexDigitChar (n : Nat) : Char :=
  if n < 10 then Char.ofNat (48 + n) else Char.ofNat (87 + n)

/-- JSON.stringify's escaping of one string character. -/
def escCharOut (c : Char) : String :=
  if c = '"' then "\\\""
  else if c = '\\' then "\\\\"
  else if c = Char.ofNat 8 then "\\b"
  else if c = Char.ofNat 12 then "\\f"
  else if c = '\n' then "\\n"
  else if c = '\r' then "\\r"
  else if c = '\t' then "\\t"
  else if c.toNat < 32 then "\\u00" ++ String.mk [hexDigitChar (c.toNat / 16), hexDigitChar (c.toNat % 16)]
  else String.singleton c

/-- A JSON string literal as JSON.stringify renders it. -/
def quoteStr (s : String) : String :=
  "\"" ++ String.join (s.toList.map escCharOut) ++ "\""

mutual

/-- The model of `JSON.stringify` on JSON values (compact separators,
insertion order preserved, as in JavaScript). -/
def jsonStringify : Json → String
  | .null => "null"
  | .bool true => "true"
  | .bool false => "false"
  | .num n => jnumToString n
  | .str s => quoteStr s
  | .arr [] => "[]"
  | .arr (x :: xs) => "[" ++ jsonStringify x ++ stringifyElems xs ++ "]"
  | .obj [] => "\x7b\x7d"
  | .obj ((k, v) :: fs) =>
      "\x7b" ++ quoteStr k ++ ":" ++ jsonStringify v ++ stringifyMembers fs ++ "\x7d"

/-- Remaining array items, each preceded by a comma. -/
def stringifyElems : List Json → String
  | [] => ""
  | x :: xs => "," ++ jsonStringify x ++ stringifyElems xs

/-- Remaining object members, each preceded by a comma. -/
def stringifyMembers : List (String × Json) → String
  | [] => ""
  | (k, v) :: fs => "," ++ quoteStr k ++ ":" ++ jsonStringify v ++ stringifyMembers fs

end

example : jsonStringify (Json.obj [("role", Json.str "admin"), ("id", Json.num ⟨7, 0⟩)])
    = "\x7b\"role\":\"admin\",\"id\":7\x7d" := rfl
example : jsonStringify (Json.obj []) = "\x7b\x7d" := rfl
example : jsonStringify (Json.num ⟨25, -1⟩) = "2.5" := rfl
example : jsonStringify (Json.str "a\"b") = "\"a\\\"b\"" := rfl

/-- An expiry value held in session state: a number as passed by login
callers (integer epoch seconds), or a string as recovered from durable
storage. -/
inductive ExpVal where
  | num : Int → ExpVal
  | str : String → ExpVal
deriving DecidableEq

/-- Whitespace trimmed by JavaScript's string-to-number coercion. -/
def isJsWsChar (c : Char) : Bool :=
  c = ' ' || c = '\t' || c = '\n' || c = '\r' || c = Char.ofNat 11 || c = Char.ofNat 12

/-- JavaScript's `Number(string)` coercion on decimal literals: trimmed
empty string is 0; otherwise an optionally signed decimal with optional
fraction and exponent; anything else is NaN (`none`).  Hexadecimal and
Infinity forms are outside the model; no value this system stores uses
them. -/
def strToNumber (s : String) : Option JNum :=
  let cs := ((s.toList.dropWhile isJsWsChar).reverse.dropWhile isJsWsChar).reverse
  match cs with
  | [] => some ⟨0, 0⟩
  | _ =>
      let signed := match cs with
        | '+' :: r => (false, r)
        | '-' :: r => (true, r)
        | _ => (false, cs)
      let neg := signed.1
      let cs1 := signed.2
      let di := cs1.takeWhile Char.isDigit
      let r1 := cs1.dropWhile Char.isDigit
      let fracRes : Option (List Char × Nat × List Char) := match r1 with
        | '.' :: r2 =>
            let fd := r2.takeWhile Char.isDigit
            if di = [] ∧ fd = [] then none
            else some (di ++ fd, fd.length, r2.dropWhile Char.isDigit)
        | _ => if di = [] then none else some (di, 0, r1)
      match fracRes with
      | none => none
      | some (mds, flen, r3) =>
          let expRes : Option (Int × List Char) := match r3 with
            | e :: r4 =>
                if e = 'e' ∨ e = 'E' then
                  let esigned := match r4 with
                    | '+' :: r5 => (false, r5)
                    | '-' :: r5 => (true, r5)
                    | _ => (false, r4)
                  let ed := esigned.2.takeWhile Char.isDigit
                  if ed = [] then none
                  else some (if esigned.1 then -(digitsVal ed : Int) else (digitsVal ed : Int),
                             esigned.2.dropWhile Char.isDigit)
                else none
            | [] => some (0, [])
          match expRes with
          | none => none
          | some (ev, r6) =>
              if r6 = [] then
                let m : Int := (digitsVal mds : Int)
                some ⟨if neg then -m else m, ev - (flen : Int)⟩
              else none

example : strToNumber "1000000000" = some ⟨1000000000, 0⟩ := rfl
example : strToNumber "" = some ⟨0, 0⟩ := rfl
example : strToNumber "abc" = none := rfl

/-- What `localStorage.setItem('userInfo', JSON.stringify(u))` stores:
`JSON.stringify(undefined)` is `undefined`, which setItem coerces to the
text "undefined". -/
def stringifyField : Option Json → String
  | none => "undefined"
  | some j => jsonStringify j

/-- String coercion of an expiry value, as setItem applies it. -/
def expValToString : ExpVal → String
  | .num n => intToStr n
  | .str s => s

/-- What `localStorage.setItem('expiresAt', expiresAt)` stores (a missing
field is `undefined`, coerced to the text "undefined"). -/
def expStoreString : Option ExpVal → String
  | none => "undefined"
  | some e => expValToString e

/-- The session state held by the provider: `token`, `expiresAt`,
`userInfo`, in the source's field order.  `none` models the absent
JavaScript values `undefined`/`null`. -/
structure AuthState where
  token : Option String
  expiresAt : Option ExpVal
  userInfo : Option Json

/-- The world a provider operation acts on: the React state, the durable
store, and the navigation history log (`history.push` appends to it). -/
structure World where
  auth : AuthState
  store : Store
  nav : List String

/-- Reading the current state snapshot (side-effect free). -/
def getState (w : World) : AuthState := w.auth

/-- Hydration at provider startup: read `userInfo` and `expiresAt` from
durable storage; a truthy stored `userInfo` is fed to `JSON.parse` (whose
SyntaxError propagates: `Except.error`), a falsy one falls back to the
empty record; `token` starts absent. -/
def hydrate (s : Store) : Except Unit AuthState :=
  match getItem s "userInfo" with
  | none => Except.ok ⟨none, (getItem s "expiresAt").map ExpVal.str, some (Json.obj [])⟩
  | some v =>
      if v = "" then Except.ok ⟨none, (getItem s "expiresAt").map ExpVal.str, some (Json.obj [])⟩
      else
        match jsonParse v with
        | some j => Except.ok ⟨none, (getItem s "expiresAt").map ExpVal.str, some j⟩
        | none => Except.error ()

/-- The mutator `setAuthInfo`: write the serialized `userInfo` and the coerced
`expiresAt` to durable storage, then replace the state with the destructured
triple.  The source performs no validation and never throws on object
arguments, so the model is total. -/
def setAuthInfo (t : Option String) (u : Option Json) (e : Option ExpVal) (w : World) : World :=
  let s1 := setItem w.store "userInfo" (stringifyField u)
  let s2 := setItem s1 "expiresAt" (expStoreString e)
  { auth := ⟨t, e, u⟩, store := s2, nav := w.nav }

/-- The unauthenticated entry point `logout` navigates to. -/
def loginRoute : String := "/login"

/-- The mutator `logout`: remove both persisted keys, reset the state to its empty form,
and push the login route onto the history. -/
def logout (w : World) : World :=
  let s1 := removeKey w.store "userInfo"
  let s2 := removeKey s1 "expiresAt"
  { auth := ⟨none, none, some (Json.obj [])⟩, store := s2, nav := w.nav ++ [loginRoute] }

/-- JavaScript truthiness of a string-or-absent value (`!token`). -/
def tokenTruthy : Option String → Bool
  | none => false
  | some s => !(s == "")

/-- JavaScript truthiness of an expiry value. -/
def expTruthy : ExpVal → Bool
  | .num n => !(n == 0)
  | .str s => !(s == "")

/-- JavaScript truthiness of `authState.expiresAt` (`!expiresAt`). -/
def expOptTruthy : Option ExpVal → Bool
  | none => false
  | some e => expTruthy e

/-- Numeric coercion applied by `<` to the expiry operand: numbers pass
through; strings go through `Number(string)`; `none` models NaN. -/
def expToNum : ExpVal → Option JNum
  | .num n => some ⟨n, 0⟩
  | .str s => strToNumber s

/-- The exact comparison `nowMs / 1000 < n` over the real numbers, by
cross-multiplication (`nowMs / 1000 < m * 10 ^ e` iff the cross-multiplied
integer comparison holds). -/
def secLtNum (nowMs : Nat) (n : JNum) : Bool :=
  if 0 ≤ n.exp10 then decide ((nowMs : Int) < 1000 * n.mant * 10 ^ n.exp10.toNat)
  else decide ((nowMs : Int) * 10 ^ (-n.exp10).toNat < 1000 * n.mant)

/-- The predicate `isAuthenticated`: false when the token or the expiry is falsy;
otherwise the clock comparison `getTime() / 1000 < expiresAt`, with a NaN
comparison yielding false. -/
def isAuthenticated (st : AuthState) (nowMs : Nat) : Bool :=
  if !(tokenTruthy st.token) || !(expOptTruthy st.expiresAt) then false
  else
    match st.expiresAt with
    | none => false
    | some e =>
        match expToNum e with
        | none => false
        | some q => secLtNum nowMs q

/-- JavaScript property lookup on a JSON value: objects look up the field,
every other defined value has no such own property (`undefined`). -/
def jsonField (j : Json) (k : String) : Option Json :=
  match j with
  | .obj fs => lookupField fs k
  | _ => none

/-- Strict equality of a property value against the literal `'admin'`. -/
def isRoleAdmin : Option Json → Bool
  | some (.str s) => s == "admin"
  | _ => false

/-- The predicate `isAdmin`: property access `userInfo.role` throws on an absent record
(`Except.error`), otherwise compares the role strictly against `'admin'`. -/
def isAdmin (u : Option Json) : Except Unit Bool :=
  match u with
  | none => Except.error ()
  | some j => Except.ok (isRoleAdmin (jsonField j "role"))

/-- The mutating operations of the provider, for reachability statements. -/
inductive Op where
  | setOp : Option String → Option Json → Option ExpVal → Op
  | logoutOp : Op

/-- Apply one operation to the world. -/
def applyOp (w : World) : Op → World
  | Op.setOp t u e => setAuthInfo t u e w
  | Op.logoutOp => logout w

/-- Run a sequence of operations. -/
def runOps (w : World) (ops : List Op) : World := ops.foldl applyOp w

/-- The request gateway's state: the default `X-CSRF-Token` header value,
absent until the handshake response installs it. -/
structure Gateway where
  header : Option String

/-- A freshly created gateway: no CSRF header installed. -/
def initGateway : Gateway := ⟨none⟩

/-- Events in a gateway lifetime: a request is issued through the client, or
the one-time handshake resolves (successfully with a token, or with a
failure that is not retried and not handled). -/
inductive GEvent where
  | request : GEvent
  | resolveOk : String → GEvent
  | resolveErr : GEvent
deriving DecidableEq

/-- One step of the gateway: requests read the defaults without changing
them; a successful handshake installs the fetched token as the default
header; a failed handshake changes nothing. -/
def gstep : Gateway → GEvent → Gateway
  | g, GEvent.request => g
  | _, GEvent.resolveOk tok => ⟨some tok⟩
  | g, GEvent.resolveErr => g

/-- Run a gateway over a lifetime of events. -/
def grun (g : Gateway) (evs : List GEvent) : Gateway := evs.foldl gstep g

/-- The CSRF headers attached to a request issued in a given gateway state
(the axios default headers relevant to the handshake). -/
def requestHeaders (g : Gateway) : List (String × String) :=
  match g.header with
  | some t => [("X-CSRF-Token", t)]
  | none => []

example : hydrate [("userInfo", "\x7b")] = Except.error () := rfl
example : hydrate [] = Except.ok ⟨none, none, some (Json.obj [])⟩ := rfl
example : hydrate [("expiresAt", "1000000000")]
    = Except.ok ⟨none, some (ExpVal.str "1000000000"), some (Json.obj [])⟩ := rfl
example : isAuthenticated ⟨some "tok", some (ExpVal.num 2000000000), some (Json.obj [])⟩ 1000000000000 = true := rfl
example : isAuthenticated ⟨some "tok", some (ExpVal.num 1000000000), some (Json.obj [])⟩ 1000000000000 = false := rfl
example : isAuthenticated ⟨none, some (ExpVal.str "1000000000"), some (Json.obj [])⟩ 0 = false := rfl
example : isAdmin (some (Json.obj [("role", Json.str "admin")])) = Except.ok true := rfl
example : isAdmin (some (Json.obj [])) = Except.ok false := rfl
example : isAdmin none = Except.error () := rfl

/-! ### Lemmas about the durable-store operations -/

theorem getItem_setItem_self (s : Store) (k v : String) :
    getItem (setItem s k v) k = some v := by
  simp [setItem, getItem]

theorem getItem_removeKey_self (s : Store) (k : String) :
    getItem (removeKey s k) k = none := by
  induction s with
  | nil => rfl
  | cons p rest ih =>
      by_cases h : p.1 = k
      · simpa [removeKey, h] using ih
      · simpa [removeKey, getItem, h] using ih

theorem getItem_removeKey_ne (s : Store) (k k' : String) (h : k' ≠ k) :
    getItem (removeKey s k') k = getItem s k := by
  induction s with
  | nil => rfl
  | cons p rest ih =>
      by_cases hp : p.1 = k'
      · simp [removeKey, getItem, hp, h, ih]
      · simp [removeKey, getItem, hp, ih]

theorem getItem_setItem_ne (s : Store) (k k' v : String) (h : k' ≠ k) :
    getItem (setItem s k' v) k = getItem s k := by
  simp only [setItem, getItem, if_neg h]
  exact getItem_removeKey_ne s k k' h

theorem removeKey_idem (s : Store) (k : String) :
    removeKey (removeKey s k) k = removeKey s k := by
  induction s with
  | nil => rfl
  | cons p rest ih =>
      by_cases h : p.1 = k
      · simp [removeKey, h, ih]
      · simp [removeKey, h, ih]

theorem removeKey_comm (s : Store) (k k' : String) :
    removeKey (removeKey s k) k' = removeKey (removeKey s k') k := by
  induction s with
  | nil => rfl
  | cons p rest ih =>
      by_cases h : p.1 = k
      · by_cases h' : p.1 = k'
        · have hk : k = k' := h.symm.trans h'
          simp [removeKey, h, h', hk, ih]
        · have hk : ¬k = k' := fun e => h' (h.trans e)
          simp [removeKey, h, h', hk, ih]
      · by_cases h' : p.1 = k'
        · have hk : ¬k' = k := fun e => h (h'.trans e)
          simp [removeKey, h, h', hk, ih]
        · simp [removeKey, h, h', ih]

/-! ### Lemmas about operations and the gateway -/

theorem grun_requests (g : Gateway) (evs : List GEvent)
    (h : ∀ e ∈ evs, e = GEvent.request) : grun g evs = g := by
  induction evs generalizing g with
  | nil => rfl
  | cons e rest ih =>
      have he : e = GEvent.request := h e (List.mem_cons_self e rest)
      have hr : ∀ x ∈ rest, x = GEvent.request := fun x hx => h x (List.mem_cons_of_mem e hx)
      rw [grun, List.foldl_cons, he]
      exact ih g hr

theorem grun_append (g : Gateway) (l1 l2 : List GEvent) :
    grun g (l1 ++ l2) = grun (grun g l1) l2 := by
  simp [grun, List.foldl_append]

theorem getItem_applyOp_ne (w : World) (o : Op) (k : String)
    (h1 : k ≠ "userInfo") (h2 : k ≠ "expiresAt") :
    getItem (applyOp w o).store k = getItem w.store k := by
  cases o with
  | setOp t u e =>
      show getItem (setItem (setItem w.store "userInfo" (stringifyField u))
        "expiresAt" (expStoreString e)) k = getItem w.store k
      rw [getItem_setItem_ne _ _ _ _ (fun e => h2 e.symm),
          getItem_setItem_ne _ _ _ _ (fun e => h1 e.symm)]
  | logoutOp =>
      show getItem (removeKey (removeKey w.store "userInfo") "expiresAt") k = getItem w.store k
      rw [getItem_removeKey_ne _ _ _ (fun e => h2 e.symm),
          getItem_removeKey_ne _ _ _ (fun e => h1 e.symm)]

theorem getItem_runOps_ne (ops : List Op) (w : World) (k : String)
    (h1 : k ≠ "userInfo") (h2 : k ≠ "expiresAt") :
    getItem (runOps w ops).store k = getItem w.store k := by
  induction ops generalizing w with
  | nil => rfl
  | cons o rest ih =>
      rw [runOps, List.foldl_cons]
      calc getItem ((rest.foldl applyOp (applyOp w o)).store) k
          = getItem (applyOp w o).store k := ih (applyOp w o)
        _ = getItem w.store k := getItem_applyOp_ne w o k h1 h2

theorem hydrate_ok_token_none (s : Store) (st : AuthState)
    (h : hydrate s = Except.ok st) : st.token = none := by
  unfold hydrate at h
  split at h
  · injection h with h'
    subst h'
    rfl
  · split at h
    · injection h with h'
      subst h'
      rfl
    · split at h
      · injection h with h'
        subst h'
        rfl
      · cases h

theorem isAuthenticated_of_token_none (st : AuthState) (nowMs : ℕ)
    (h : st.token = none) : isAuthenticated st nowMs = false := by
  simp [isAuthenticated, h, tokenTruthy]

/-! ### Claim theorems -/

/-- Claim C1, counterexample: hydration is not total over durable-storage
contents.  With the stored `userInfo` value an opening brace - text that is
not parsable as JSON - constructing the initial session state raises the
parse error instead of falling back to the empty identity record. -/
theorem hydrate_crash_counterexample :
    hydrate [("userInfo", "\x7b")] = Except.error () := rfl

/-- Claim C1, amended: hydration falls back to the empty identity record
when the stored `userInfo` is absent or empty, and succeeds with the parsed
record when the stored text parses as JSON; but when a non-empty stored
value is not parsable, constructing the initial session state raises the
parse error (hydration is not total). -/
theorem hydrate_recovery :
    (∀ s : Store, getItem s "userInfo" = none →
        hydrate s = Except.ok ⟨none, (getItem s "expiresAt").map ExpVal.str, some (Json.obj [])⟩) ∧
    (∀ s : Store, getItem s "userInfo" = some "" →
        hydrate s = Except.ok ⟨none, (getItem s "expiresAt").map ExpVal.str, some (Json.obj [])⟩) ∧
    (∀ (s : Store) (v : String) (j : Json), getItem s "userInfo" = some v → jsonParse v = some j →
        hydrate s = Except.ok ⟨none, (getItem s "expiresAt").map ExpVal.str, some j⟩) ∧
    (∀ (s : Store) (v : String), getItem s "userInfo" = some v → v ≠ "" → jsonParse v = none →
        hydrate s = Except.error ()) := by
  refine ⟨fun s h => ?_, fun s h => ?_, fun s v j h hp => ?_, fun s v h hv hp => ?_⟩
  · simp [hydrate, h]
  · simp [hydrate, h]
  · by_cases hv : v = ""
    · subst hv
      rw [show jsonParse "" = (none : Option Json) from rfl] at hp
      cases hp
    · simp [hydrate, h, hv, hp]
  · simp [hydrate, h, hv, hp]

/-- Claim C1, witness for the amended theorem at concrete stores: an empty
store and a store with a parsable record hydrate successfully; the
unparsable store raises. -/
theorem hydrate_recovery_witness :
    hydrate [] = Except.ok ⟨none, none, some (Json.obj [])⟩ ∧
    hydrate [("userInfo", "\x7b\"role\":\"admin\"\x7d")]
      = Except.ok ⟨none, none, some (Json.obj [("role", Json.str "admin")])⟩ ∧
    hydrate [("userInfo", "x")] = Except.error () := by
  refine ⟨hydrate_recovery.1 [] rfl, ?_, ?_⟩
  · exact hydrate_recovery.2.2.1 [("userInfo", "\x7b\"role\":\"admin\"\x7d")]
      "\x7b\"role\":\"admin\"\x7d" (Json.obj [("role", Json.str "admin")]) rfl rfl
  · exact hydrate_recovery.2.2.2 [("userInfo", "x")] "x" rfl (by decide) rfl

/-- Claim C2, counterexample: a `setAuthInfo` call whose `token` field is
missing does not fail fast; it silently installs a partial session (token
absent, the other fields present) and writes both storage keys. -/
theorem setAuthInfo_missing_field_counterexample :
    (setAuthInfo none (some (Json.obj [("role", Json.str "admin")])) (some (ExpVal.num 1700000000))
        ⟨⟨none, none, none⟩, [], []⟩).auth.token = none ∧
    (setAuthInfo none (some (Json.obj [("role", Json.str "admin")])) (some (ExpVal.num 1700000000))
        ⟨⟨none, none, none⟩, [], []⟩).auth.expiresAt = some (ExpVal.num 1700000000) ∧
    getItem (setAuthInfo none (some (Json.obj [("role", Json.str "admin")])) (some (ExpVal.num 1700000000))
        ⟨⟨none, none, none⟩, [], []⟩).store "expiresAt" = some "1700000000" :=
  ⟨rfl, rfl, rfl⟩

/-- Claim C2, amended: `setAuthInfo` performs no validation of its three
fields.  Every call - including one with missing required fields - runs to
completion, installs the destructured triple as the session state (missing
fields staying absent), writes both storage keys, and performs no
navigation. -/
theorem setAuthInfo_no_validation :
    ∀ (t : Option String) (u : Option Json) (e : Option ExpVal) (w : World),
      (setAuthInfo t u e w).auth = ⟨t, e, u⟩ ∧
      getItem (setAuthInfo t u e w).store "userInfo" = some (stringifyField u) ∧
      getItem (setAuthInfo t u e w).store "expiresAt" = some (expStoreString e) ∧
      (setAuthInfo t u e w).nav = w.nav := by
  intro t u e w
  refine ⟨rfl, ?_, ?_, rfl⟩
  · show getItem (setItem (setItem w.store "userInfo" (stringifyField u))
      "expiresAt" (expStoreString e)) "userInfo" = some (stringifyField u)
    rw [getItem_setItem_ne _ _ _ _ (by decide), getItem_setItem_self]
  · exact getItem_setItem_self _ _ _

/-- Claim C4: for every triple, `setAuthInfo` followed by `getState` returns
exactly that triple, and (starting from an empty durable store) the store
afterwards holds exactly the serialized identity under `userInfo` and the
coerced expiry under `expiresAt` - in particular no `token` key. -/
theorem setSession_roundtrip :
    ∀ (t : String) (u : Json) (e : ExpVal) (a : AuthState) (nav : List String),
      getState (setAuthInfo (some t) (some u) (some e) ⟨a, [], nav⟩) = ⟨some t, some e, some u⟩ ∧
      (setAuthInfo (some t) (some u) (some e) ⟨a, [], nav⟩).store
        = [("expiresAt", expValToString e), ("userInfo", jsonStringify u)] ∧
      getItem (setAuthInfo (some t) (some u) (some e) ⟨a, [], nav⟩).store "token" = none :=
  fun _ _ _ _ _ => ⟨rfl, rfl, rfl⟩

/-- Claim C5: from every starting world, `logout` resets the session state
to its empty form (token and expiry absent, identity the empty record),
removes both persisted keys, and pushes the unauthenticated entry point
onto the navigation history; `setAuthInfo` - the only other mutator of the
two components, their predicates and hydration being read-only by type -
never navigates. -/
theorem logout_resets_and_navigates :
    ∀ w : World,
      (logout w).auth = ⟨none, none, some (Json.obj [])⟩ ∧
      getItem (logout w).store "userInfo" = none ∧
      getItem (logout w).store "expiresAt" = none ∧
      (logout w).nav = w.nav ++ [loginRoute] ∧
      (∀ (t : Option String) (u : Option Json) (e : Option ExpVal) (w' : World),
          (setAuthInfo t u e w').nav = w'.nav) := by
  intro w
  refine ⟨rfl, ?_, ?_, rfl, fun _ _ _ _ => rfl⟩
  · show getItem (removeKey (removeKey w.store "userInfo") "expiresAt") "userInfo" = none
    rw [getItem_removeKey_ne _ _ _ (by decide)]
    exact getItem_removeKey_self _ _
  · exact getItem_removeKey_self _ _

/-- Claim C10: `logout` is idempotent on the session state and the durable
store: a second `logout` leaves exactly the session state and storage
contents of the first (and, being total, is safe to call when already
unauthenticated). -/
theorem logout_idempotent :
    ∀ w : World,
      (logout (logout w)).auth = (logout w).auth ∧
      (logout (logout w)).store = (logout w).store := by
  intro w
  refine ⟨rfl, ?_⟩
  show removeKey (removeKey (removeKey (removeKey w.store "userInfo") "expiresAt") "userInfo")
      "expiresAt" = removeKey (removeKey w.store "userInfo") "expiresAt"
  rw [removeKey_comm (removeKey w.store "userInfo") "expiresAt" "userInfo",
      removeKey_idem w.store "userInfo", removeKey_idem]

theorem grun_cons (g : Gateway) (e : GEvent) (evs : List GEvent) :
    grun g (e :: evs) = grun (gstep g e) evs := rfl

/-- Claim C3: `isAuthenticated` is false whenever the token or the expiry is
absent (the source's falsiness test: `null`/`undefined` or the empty
string); otherwise, for a numeric expiry in seconds, it is true exactly when
the millisecond clock divided by 1000 is strictly less than `expiresAt`. -/
theorem isAuthenticated_correct :
    (∀ (st : AuthState) (nowMs : ℕ),
        st.token = none ∨ st.token = some "" ∨ st.expiresAt = none →
        isAuthenticated st nowMs = false) ∧
    (∀ (st : AuthState) (nowMs : ℕ) (tk : String) (q : ℤ),
        st.token = some tk → tk ≠ "" → st.expiresAt = some (ExpVal.num q) →
        (isAuthenticated st nowMs = true ↔ (nowMs : ℚ) / 1000 < (q : ℚ))) := by
  constructor
  · rintro ⟨tok, exp, ui⟩ now (h | h | h) <;> subst h <;>
      simp [isAuthenticated, tokenTruthy, expOptTruthy]
  · rintro ⟨tok, exp, ui⟩ now tk q htok hne hexp
    simp only at htok hexp
    subst htok
    subst hexp
    have htkb : (tk == "") = false := beq_eq_false_iff_ne.mpr hne
    by_cases hq : q = 0
    · subst hq
      have hred : isAuthenticated ⟨some tk, some (ExpVal.num 0), ui⟩ now = false := by
        simp [isAuthenticated, tokenTruthy, expOptTruthy, expTruthy]
      rw [hred]
      constructor
      · intro hc
        exact absurd hc (by simp)
      · intro hlt
        exfalso
        have h0 : (0:ℚ) ≤ (now:ℚ) / 1000 := by positivity
        rw [Int.cast_zero] at hlt
        linarith
    · have hqb : (q == 0) = false := beq_eq_false_iff_ne.mpr hq
      have hred : isAuthenticated ⟨some tk, some (ExpVal.num q), ui⟩ now
          = decide ((now : ℤ) < 1000 * q) := by
        simp [isAuthenticated, tokenTruthy, expOptTruthy, expTruthy, expToNum, secLtNum,
          htkb, hqb]
      rw [hred, decide_eq_true_iff]
      rw [div_lt_iff₀ (by norm_num : (0:ℚ) < 1000)]
      constructor
      · intro hlt
        have hc : ((now : ℤ) : ℚ) < ((1000 * q : ℤ) : ℚ) := Int.cast_lt.mpr hlt
        push_cast at hc ⊢
        linarith
      · intro hlt
        have hc : ((now : ℕ) : ℚ) < (((1000 * q : ℤ)) : ℚ) := by push_cast; linarith
        exact_mod_cast hc

/-- Claim C3, witness: a present token with a future expiry authenticates; a
past expiry or an absent token does not (clock 10^12 ms = 10^9 s). -/
theorem isAuthenticated_correct_witness :
    isAuthenticated ⟨some "jwt", some (ExpVal.num 2000000000), some (Json.obj [])⟩ 1000000000000 = true ∧
    isAuthenticated ⟨some "jwt", some (ExpVal.num 1000000000), some (Json.obj [])⟩ 1000000000000 = false ∧
    isAuthenticated ⟨none, some (ExpVal.num 2000000000), some (Json.obj [])⟩ 1000000000000 = false := by
  refine ⟨?_, rfl, ?_⟩
  · exact (isAuthenticated_correct.2 ⟨some "jwt", some (ExpVal.num 2000000000), some (Json.obj [])⟩
      1000000000000 "jwt" 2000000000 rfl (by decide) rfl).mpr (by norm_num)
  · exact isAuthenticated_correct.1 ⟨none, some (ExpVal.num 2000000000), some (Json.obj [])⟩
      1000000000000 (Or.inl rfl)

/-- Claim C6: across every sequence of provider operations, only the
`userInfo` and `expiresAt` keys of durable storage are ever touched; the
stored contents do not depend on the token argument at all; hydration reads
nothing under any other key (removing a `token` key cannot change it); and
hence a store with no `token` key never acquires one - the session token is
never persisted. -/
theorem token_never_persisted :
    (∀ (ops : List Op) (w : World) (k : String), k ≠ "userInfo" → k ≠ "expiresAt" →
        getItem (runOps w ops).store k = getItem w.store k) ∧
    (∀ (t t' : Option String) (u : Option Json) (e : Option ExpVal) (w : World),
        (setAuthInfo t u e w).store = (setAuthInfo t' u e w).store) ∧
    (∀ s : Store, hydrate (removeKey s "token") = hydrate s) ∧
    (∀ (ops : List Op) (w : World), getItem w.store "token" = none →
        getItem (runOps w ops).store "token" = none) := by
  refine ⟨fun ops w k h1 h2 => getItem_runOps_ne ops w k h1 h2,
    fun _ _ _ _ _ => rfl, fun s => ?_, fun ops w h => ?_⟩
  · unfold hydrate
    rw [getItem_removeKey_ne s "userInfo" "token" (by decide),
        getItem_removeKey_ne s "expiresAt" "token" (by decide)]
  · rw [getItem_runOps_ne ops w "token" (by decide) (by decide)]
    exact h

/-- Claim C6, witness: after a login with a secret token followed by a
logout, starting from an empty store, durable storage still has no `token`
key. -/
theorem token_never_persisted_witness :
    getItem (runOps ⟨⟨none, none, none⟩, [], []⟩
      [Op.setOp (some "jwt-secret") (some (Json.obj [])) (some (ExpVal.num 99)),
       Op.logoutOp]).store "token" = none :=
  token_never_persisted.2.2.2
    [Op.setOp (some "jwt-secret") (some (Json.obj [])) (some (ExpVal.num 99)), Op.logoutOp]
    ⟨⟨none, none, none⟩, [], []⟩ rfl

/-- Claim C7: for every identity record, `isAdmin` evaluates (it can only
throw on an absent record) to true exactly when the record's `role` field is
the literal string "admin"; any other role value, an absent role field, or
the empty record yields false. -/
theorem isAdmin_role :
    ∀ fs : List (String × Json),
      isAdmin (some (Json.obj fs)) = Except.ok (isRoleAdmin (lookupField fs "role")) ∧
      (isAdmin (some (Json.obj fs)) = Except.ok true ↔
        lookupField fs "role" = some (Json.str "admin")) ∧
      isAdmin (some (Json.obj [])) = Except.ok false := by
  intro fs
  refine ⟨rfl, ?_, rfl⟩
  rcases hl : lookupField fs "role" with _ | j
  · simp [isAdmin, jsonField, hl, isRoleAdmin]
  · cases j <;> simp [isAdmin, jsonField, hl, isRoleAdmin]

/-- Claim C9: whatever the durable-storage contents, a successful hydration
yields a state whose token is absent, so `isAuthenticated` is false at every
clock value - token absence dominates even a future parsed expiry. -/
theorem hydrated_state_unauthenticated :
    ∀ (s : Store) (st : AuthState) (nowMs : ℕ), hydrate s = Except.ok st →
      st.token = none ∧ isAuthenticated st nowMs = false :=
  fun s st nowMs h =>
    ⟨hydrate_ok_token_none s st h,
     isAuthenticated_of_token_none st nowMs (hydrate_ok_token_none s st h)⟩

/-- Claim C9, witness: hydrating a store holding only
`expiresAt = "1000000000"` gives an unauthenticated state. -/
theorem hydrated_state_unauthenticated_witness :
    isAuthenticated ⟨none, some (ExpVal.str "1000000000"), some (Json.obj [])⟩ 0 = false :=
  (hydrated_state_unauthenticated [("expiresAt", "1000000000")]
    ⟨none, some (ExpVal.str "1000000000"), some (Json.obj [])⟩ 0 rfl).2

/-- Claim C8: the CSRF handshake happens at most once in a gateway lifetime
(the event trace contains a single resolution); every request issued before
it resolves is sent without the `X-CSRF-Token` header; after a successful
resolution every subsequent request carries the header with the fetched
token; after a failed resolution - never retried - the header stays unset
for every subsequent request. -/
theorem csrf_header_lifecycle :
    ∀ (pre post : List GEvent) (tok : String),
      (∀ e ∈ pre, e = GEvent.request) → (∀ e ∈ post, e = GEvent.request) →
      requestHeaders (grun initGateway pre) = [] ∧
      grun initGateway (pre ++ GEvent.resolveOk tok :: post) = ⟨some tok⟩ ∧
      requestHeaders (grun initGateway (pre ++ GEvent.resolveOk tok :: post))
        = [("X-CSRF-Token", tok)] ∧
      grun initGateway (pre ++ GEvent.resolveErr :: post) = ⟨none⟩ ∧
      requestHeaders (grun initGateway (pre ++ GEvent.resolveErr :: post)) = [] := by
  intro pre post tok hpre hpost
  have h1 : grun initGateway pre = initGateway := grun_requests _ _ hpre
  have hok : grun initGateway (pre ++ GEvent.resolveOk tok :: post) = ⟨some tok⟩ := by
    rw [grun_append, h1, grun_cons]
    exact grun_requests _ _ hpost
  have herr : grun initGateway (pre ++ GEvent.resolveErr :: post) = ⟨none⟩ := by
    rw [grun_append, h1, grun_cons]
    exact grun_requests _ _ hpost
  exact ⟨by rw [h1]; rfl, hok, by rw [hok]; rfl, herr, by rw [herr]; rfl⟩

/-- Claim C8, witness: with one request before the handshake and one after,
the first request carries no CSRF header, and after a successful resolution
with token "tok" the later request carries exactly that header (after a
failure it carries none). -/
theorem csrf_header_lifecycle_witness :
    requestHeaders (grun initGateway [GEvent.request]) = [] ∧
    requestHeaders (grun initGateway ([GEvent.request] ++ GEvent.resolveOk "tok" :: [GEvent.request]))
      = [("X-CSRF-Token", "tok")] ∧
    requestHeaders (grun initGateway ([GEvent.request] ++ GEvent.resolveErr :: [GEvent.request])) = [] := by
  have h := csrf_header_lifecycle [GEvent.request] [GEvent.request] "tok" (by decide) (by decide)
  exact ⟨h.1, h.2.2.1, h.2.2.2.2⟩

/-- Claim C7, witness: a record with role "admin" is an admin; a record with
role "user" and the empty record are not. -/
theorem isAdmin_role_witness :
    isAdmin (some (Json.obj [("role", Json.str "admin")])) = Except.ok true ∧
    isAdmin (some (Json.obj [("role", Json.str "user")])) = Except.ok false ∧
    isAdmin (some (Json.obj [])) = Except.ok false :=
  ⟨(isAdmin_role [("role", Json.str "admin")]).2.1.mpr rfl,
   (isAdmin_role [("role", Json.str "user")]).1,
   (isAdmin_role []).2.2⟩
